import Mathlib

/-!
Shallow embedding of the annotation-conversion scripts of the `obj_detec`
repository, together with proofs about them.

Each Python script is embedded as a namespace of Lean definitions:

* `CocoToPascal`    — `Coco_to_pascal.py`: bbox step of `convert_coco_to_pascal_voc`.
* `PascalToYolo`    — `Pascal_to_yolo.py`: bbox step of `pascal_voc_to_yolo`.
* `PascalToCoco`    — `Pascal_to_coco.py` / `voc_to_coco.py`: `pascal_voc_to_coco`.
* `YoloToCoco`      — `Yolo_to_coco.py`: `convert_yolo_to_coco`.
* `CocoToYolo`      — `coco_to_yolo.py`: `convert_coco_to_yolo`.
* `CocoToYoloSplit` — `coco_to_yolo_split.py`: `convert_coco_to_yolo` (split variant).
* `YoloToPascal`    — `Yolo_to_pascal.py`: `convert_yolo_to_pascal_voc`.

File-system and image I/O (directory listing, `cv2.imread`, `PIL.Image.open`,
copying image bytes) are external collaborators: the embeddings take their
results as inputs (pre-parsed files, an image-dimension oracle `String →
Option (ℕ × ℕ)` where `none` models a missing/unreadable image).  Python
floats are modelled by `ℚ`; Python exceptions by `Except Unit`.
-/

namespace ObjDetec

/-- Python `int()` applied to a float: truncation toward zero. -/
def pyInt (q : ℚ) : ℤ := if q < 0 then ⌈q⌉ else ⌊q⌋

/-- The integer whose decimal digits are the 6-decimal fixed-point rendering of
`q`, as printed by Python `f"{q:.6f}"` (so `fmt6 q = 572917` means the text
`0.572917` for `q` in `[0,1)`).  Rounds half away from zero; Python's float
formatting rounds the underlying double half-to-even, which agrees on every
value appearing in this development (none is a tie). -/
def fmt6 (q : ℚ) : ℤ := ⌊q * 1000000 + 1 / 2⌋

/-- Helper for `pySplit`: walks the character list, accumulating the current
token (in reverse) in `acc`. -/
def pySplitAux : List Char → List Char → List String
  | [], acc => if acc.isEmpty then [] else [String.mk acc.reverse]
  | c :: cs, acc =>
    if c.isWhitespace then
      if acc.isEmpty then pySplitAux cs [] else String.mk acc.reverse :: pySplitAux cs []
    else pySplitAux cs (c :: acc)

/-- Python `s.strip().split()`: split on runs of whitespace, dropping empty
tokens. -/
def pySplit (s : String) : List String := pySplitAux s.toList []

/-- Numeric value of a list of decimal digit characters. -/
def digitsVal (cs : List Char) : ℕ := cs.foldl (fun n c => n * 10 + (c.toNat - 48)) 0

/-- Parse an unsigned decimal literal (`"12"`, `"12.5"`, `"12."`, `".5"`),
returning `none` on anything else. -/
def pyFloatUnsigned (cs : List Char) : Option ℚ :=
  let intPart := cs.takeWhile Char.isDigit
  match cs.dropWhile Char.isDigit with
  | [] => if intPart.isEmpty then none else some (digitsVal intPart)
  | '.' :: frac =>
    if frac.all Char.isDigit ∧ ¬(intPart.isEmpty ∧ frac.isEmpty) then
      some ((digitsVal intPart : ℚ) + (digitsVal frac : ℚ) / (10 : ℚ) ^ frac.length)
    else none
  | _ => none

/-- Python `float(s)` on the plain decimal literals the annotation files use:
optional sign, then digits with at most one decimal point.  (Exponent forms,
`inf`/`nan` and surrounding whitespace do not occur in the inputs considered
and are not modelled.)  `none` models `float` raising `ValueError`. -/
def pyFloat (s : String) : Option ℚ :=
  match s.toList with
  | '-' :: rest => (pyFloatUnsigned rest).map (fun q => -q)
  | '+' :: rest => pyFloatUnsigned rest
  | cs => pyFloatUnsigned cs

/-- Helper for `pyReplace`, with fuel to make the recursion structural; the
fuel passed by `pyReplace` is always sufficient for a nonempty pattern. -/
def replaceFuel (pat rep : List Char) : ℕ → List Char → List Char
  | 0, l => l
  | _ + 1, [] => []
  | fuel + 1, c :: cs =>
    if pat.isPrefixOf (c :: cs) then rep ++ replaceFuel pat rep fuel ((c :: cs).drop pat.length)
    else c :: replaceFuel pat rep fuel cs

/-- Python `s.replace(pat, rep)` for a nonempty pattern: replace every
non-overlapping occurrence, left to right. -/
def pyReplace (s pat rep : String) : String :=
  String.mk (replaceFuel pat.toList rep.toList (s.toList.length + 1) s.toList)

/-- Insert a string into a sorted list (ascending lexicographic order, the
order Python `sorted` uses on strings). -/
def insertSorted (x : String) : List String → List String
  | [] => [x]
  | y :: ys => if y < x then y :: insertSorted x ys else x :: y :: ys

/-- Python `sorted` on a list of strings (insertion sort; the comparison is
lexicographic by code point, as in Python). -/
def pySorted (l : List String) : List String := l.foldr insertSorted []

namespace CocoToPascal

/-- Bbox step of `convert_coco_to_pascal_voc` (`Coco_to_pascal.py`):
`xmin, ymin, xmax, ymax = int(x), int(y), int(x + w), int(y + h)`. -/
def coco_bbox_to_voc (b : ℚ × ℚ × ℚ × ℚ) : ℤ × ℤ × ℤ × ℤ :=
  (pyInt b.1, pyInt b.2.1, pyInt (b.1 + b.2.2.1), pyInt (b.2.1 + b.2.2.2))

end CocoToPascal

namespace PascalToYolo

/-- Per-object bbox step of `pascal_voc_to_yolo` (`Pascal_to_yolo.py`): the
degenerate check `xmax <= xmin or ymax <= ymin` skips the object (`none`),
otherwise the normalized center/size quadruple
`((xmin+xmax)/(2*width), (ymin+ymax)/(2*height), (xmax-xmin)/width,
(ymax-ymin)/height)` is emitted. -/
def voc_to_yolo_box (xmin ymin xmax ymax width height : ℤ) : Option (ℚ × ℚ × ℚ × ℚ) :=
  if xmax ≤ xmin ∨ ymax ≤ ymin then none
  else some ((xmin + xmax : ℚ) / (2 * width), (ymin + ymax : ℚ) / (2 * height),
    (xmax - xmin : ℚ) / width, (ymax - ymin : ℚ) / height)

end PascalToYolo

namespace PascalToCoco

/-- Bbox step of `pascal_voc_to_coco` (`Pascal_to_coco.py` / `voc_to_coco.py`):
`"bbox": [xmin, ymin, xmax - xmin, ymax - ymin]`. -/
def voc_bbox_to_coco (b : ℤ × ℤ × ℤ × ℤ) : ℤ × ℤ × ℤ × ℤ :=
  (b.1, b.2.1, b.2.2.1 - b.1, b.2.2.2 - b.2.1)

/-- One `<object>` element of a parsed VOC XML file. -/
structure VocObject where
  name : String
  xmin : ℤ
  ymin : ℤ
  xmax : ℤ
  ymax : ℤ
deriving DecidableEq

/-- One VOC XML file that parsed successfully and whose image file was found:
declared filename, the image collaborator's width/height, and the object
list. -/
structure VocFile where
  filename : String
  width : ℕ
  height : ℕ
  objects : List VocObject
deriving DecidableEq

/-- An entry of the output `images` array. -/
structure CocoImage where
  id : ℕ
  file_name : String
  width : ℕ
  height : ℕ
deriving DecidableEq

/-- An entry of the output `annotations` array. -/
structure CocoAnn where
  id : ℕ
  image_id : ℕ
  category_id : ℕ
  bbox : ℤ × ℤ × ℤ × ℤ
  area : ℤ
  iscrowd : ℕ
deriving DecidableEq

/-- The COCO JSON document `pascal_voc_to_coco` accumulates. -/
structure CocoOut where
  images : List CocoImage
  annotations : List CocoAnn
  categories : List (ℕ × String)
deriving DecidableEq

/-- Loop state of `pascal_voc_to_coco`: the document under construction, the
`category_mapping` dict (name at index `i` has id `i + 1`, insertion order),
and the `annotation_id` counter. -/
structure PState where
  out : CocoOut
  catMapping : List String
  annId : ℕ
deriving DecidableEq

/-- Category resolution in `pascal_voc_to_coco`: a known name keeps its id, a
new name gets id `len(category_mapping) + 1` and is appended to both the
mapping and the output `categories` array.  Returns the id and updated
state. -/
def resolveCat (s : PState) (name : String) : ℕ × PState :=
  match s.catMapping.findIdx? (· == name) with
  | some i => (i + 1, s)
  | none =>
    (s.catMapping.length + 1,
      { s with
        catMapping := s.catMapping ++ [name],
        out := { s.out with
          categories := s.out.categories ++ [(s.catMapping.length + 1, name)] } })

/-- Body of the `for obj in root.findall('object')` loop: resolve the
category, then either skip the box (degenerate) or append the annotation and
bump `annotation_id`. -/
def processObj (imageId : ℕ) (s : PState) (obj : VocObject) : PState :=
  let r := resolveCat s obj.name
  if obj.xmax ≤ obj.xmin ∨ obj.ymax ≤ obj.ymin then r.2
  else
    { r.2 with
      out := { r.2.out with
        annotations := r.2.out.annotations ++
          [{ id := r.2.annId, image_id := imageId, category_id := r.1,
             bbox := voc_bbox_to_coco (obj.xmin, obj.ymin, obj.xmax, obj.ymax),
             area := (obj.xmax - obj.xmin) * (obj.ymax - obj.ymin), iscrowd := 0 }] },
      annId := r.2.annId + 1 }

/-- Body of the `for idx, xml_file in enumerate(xml_files)` loop: a file that
failed to parse or whose image is missing (`none`) is skipped; otherwise the
image record (`image_id = idx + 1`) is appended and the objects processed. -/
def processVocFile (s : PState) (idxFile : ℕ × Option VocFile) : PState :=
  match idxFile.2 with
  | none => s
  | some f =>
    let imageId := idxFile.1 + 1
    let s1 := { s with
      out := { s.out with
        images := s.out.images ++ [{ id := imageId, file_name := f.filename,
                                     width := f.width, height := f.height }] } }
    f.objects.foldl (processObj imageId) s1

/-- `pascal_voc_to_coco` (`Pascal_to_coco.py` and its duplicate
`voc_to_coco.py`): the input list stands for the parsed XML files in directory
order (`none` = parse error or missing image).  The `maxFiles` parameter
mirrors the Python `max_files` keyword argument, which the function body never
reads. -/
def pascal_voc_to_coco (files : List (Option VocFile)) (maxFiles : ℕ) : CocoOut :=
  let _ := maxFiles
  (files.enum.foldl processVocFile
    { out := { images := [], annotations := [], categories := [] },
      catMapping := [], annId := 1 }).out

end PascalToCoco

namespace YoloToCoco

/-- `category_mapping = {name: idx + 1 for idx, name in enumerate(CLASS_NAMES)}`
(`Yolo_to_coco.py`): the category name on 0-based line `idx` of `classes.txt`
gets COCO id `idx + 1`. -/
def category_mapping (classNames : List String) : List (ℕ × String) :=
  classNames.enum.map (fun p => (p.1 + 1, p.2))

/-- Python `s.lower()`. -/
def pyLower (s : String) : String := String.mk (s.toList.map Char.toLower)

/-- Python `s.endswith(suf)`. -/
def pyEndsWith (s suf : String) : Bool := suf.toList.isSuffixOf s.toList

/-- The filter `img_file.lower().endswith((".jpg", ".png"))`. -/
def isImg (name : String) : Bool :=
  pyEndsWith (pyLower name) ".jpg" || pyEndsWith (pyLower name) ".png"

/-- An annotation of the emitted COCO JSON; the bbox is float-valued here
(`Yolo_to_coco.py` writes the un-rounded products). -/
structure YAnn where
  id : ℕ
  image_id : ℕ
  category_id : ℤ
  bbox : ℚ × ℚ × ℚ × ℚ
  area : ℚ
  iscrowd : ℕ
deriving DecidableEq

/-- Loop state of `convert_yolo_to_coco`: `images`, `annotations`, and the
`annotation_id` counter. -/
structure YState where
  images : List PascalToCoco.CocoImage
  anns : List YAnn
  annId : ℕ
deriving DecidableEq

/-- Outcome of `parts = line.strip().split()` followed by
`if len(parts) != 5: continue` and `map(float, parts)`: a line with a field
count other than 5 is skipped, a 5-field line with a non-numeric field raises
`ValueError` (`err`), and otherwise the five floats are produced. -/
inductive LineResult where
  | skip
  | err
  | vals (c xc yc w h : ℚ)
deriving DecidableEq

/-- Parse one label line as `convert_yolo_to_coco` does. -/
def parseLine (line : String) : LineResult :=
  match pySplit line with
  | [p1, p2, p3, p4, p5] =>
    match pyFloat p1, pyFloat p2, pyFloat p3, pyFloat p4, pyFloat p5 with
    | some c, some xc, some yc, some w, some h => .vals c xc yc w h
    | _, _, _, _, _ => .err
  | _ => .skip

/-- Body of the `for line in lines` loop: convert the normalized box back to
absolute origin+size form and append the annotation with
`category_id = int(class_id) + 1`; a `ValueError` aborts
(`Except.error`). -/
def processLine (imageId W H : ℕ) (s : YState) (line : String) : Except Unit YState :=
  match parseLine line with
  | .skip => .ok s
  | .err => .error ()
  | .vals c xc yc w h =>
    let x : ℚ := (xc - w / 2) * W
    let y : ℚ := (yc - h / 2) * H
    let w' : ℚ := w * W
    let h' : ℚ := h * H
    .ok { s with
      anns := s.anns ++
        [{ id := s.annId, image_id := imageId, category_id := pyInt c + 1,
           bbox := (x, y, w', h'), area := w' * h', iscrowd := 0 }],
      annId := s.annId + 1 }

/-- The `for line in lines` loop; an uncaught `ValueError` propagates. -/
def processLines (imageId W H : ℕ) (s : YState) : List String → Except Unit YState
  | [] => .ok s
  | l :: ls =>
    match processLine imageId W H s l with
    | .ok s' => processLines imageId W H s' ls
    | .error e => .error e

/-- One entry of the YOLO image directory: the file name, the label file's
lines (`none` = no corresponding label file), and the image collaborator's
dimensions (`none` = `cv2.imread` returned `None`). -/
structure YoloFile where
  name : String
  labelLines : Option (List String)
  dims : Option (ℕ × ℕ)
deriving DecidableEq

/-- Body of the `for img_file in os.listdir(...)` loop: skip non-image names,
missing label files and unreadable images; otherwise append the image record
(`img_id = len(images) + 1`) and process its label lines. -/
def processYoloFile (s : YState) (f : YoloFile) : Except Unit YState :=
  if isImg f.name then
    match f.labelLines with
    | none => .ok s
    | some lines =>
      match f.dims with
      | none => .ok s
      | some (W, H) =>
        let imageId := s.images.length + 1
        processLines imageId W H
          { s with images := s.images ++
              [{ id := imageId, file_name := f.name, width := W, height := H }] } lines
  else .ok s

/-- The `for img_file in os.listdir(...)` loop. -/
def processYoloFiles (s : YState) : List YoloFile → Except Unit YState
  | [] => .ok s
  | f :: fs =>
    match processYoloFile s f with
    | .ok s' => processYoloFiles s' fs
    | .error e => .error e

/-- The COCO JSON document `convert_yolo_to_coco` writes. -/
structure YOut where
  images : List PascalToCoco.CocoImage
  annotations : List YAnn
  categories : List (ℕ × String)
deriving DecidableEq

/-- `convert_yolo_to_coco` (`Yolo_to_coco.py`): categories come from
`category_mapping` over `classes.txt`, then the image directory is processed
file by file starting from `annotation_id = 1`. -/
def convert_yolo_to_coco (classNames : List String) (files : List YoloFile) :
    Except Unit YOut :=
  match processYoloFiles { images := [], anns := [], annId := 1 } files with
  | .ok s => .ok { images := s.images, annotations := s.anns,
                   categories := category_mapping classNames }
  | .error e => .error e

end YoloToCoco

namespace CocoToYolo

/-- An entry of the input JSON's `images` array (id and file name; the pixel
size is read from the image collaborator, not the JSON, in
`coco_to_yolo.py`). -/
structure CImage where
  id : ℤ
  file_name : String
deriving DecidableEq

/-- An entry of the input JSON's `categories` array. -/
structure CCat where
  id : ℤ
  name : String
deriving DecidableEq

/-- An entry of the input JSON's `annotations` array (origin+size float
bbox). -/
structure CAnn where
  image_id : ℤ
  category_id : ℤ
  bbox : ℚ × ℚ × ℚ × ℚ
deriving DecidableEq

/-- One line `{class_id} {x_center} {y_center} {w} {h}` appended to the label
file of its image by `convert_coco_to_yolo` (`coco_to_yolo.py` writes the raw
float values, with no 6-decimal formatting). -/
structure YoloLine where
  labelFile : String
  classId : ℕ
  xc : ℚ
  yc : ℚ
  w : ℚ
  h : ℚ
deriving DecidableEq

/-- Body of the `for ann in data["annotations"]` loop of `coco_to_yolo.py`:
a dict lookup miss (`images[img_id]`, `categories[...]`,
`class_name_to_id[...]`) raises `KeyError` (`Except.error`); a missing or
unreadable image file skips the annotation; otherwise the normalized line is
emitted with the class id equal to the name's position in the sorted class
list.  No degenerate-box check appears in this loop. -/
def processAnns (images : List CImage) (cats : List CCat) (classList : List String)
    (dims : String → Option (ℕ × ℕ)) : List CAnn → Except Unit (List YoloLine)
  | [] => .ok []
  | ann :: rest =>
    match images.find? (fun i => i.id == ann.image_id) with
    | none => .error ()
    | some img =>
      match dims img.file_name with
      | none => processAnns images cats classList dims rest
      | some (W, H) =>
        match cats.find? (fun c => c.id == ann.category_id) with
        | none => .error ()
        | some cat =>
          match classList.findIdx? (· == cat.name) with
          | none => .error ()
          | some ci =>
            let x := ann.bbox.1
            let y := ann.bbox.2.1
            let w := ann.bbox.2.2.1
            let h := ann.bbox.2.2.2
            let line : YoloLine :=
              ⟨pyReplace (pyReplace img.file_name ".jpg" ".txt") ".png" ".txt", ci,
               (x + w / 2) / W, (y + h / 2) / H, w / W, h / H⟩
            match processAnns images cats classList dims rest with
            | .ok ls => .ok (line :: ls)
            | .error e => .error e

/-- `convert_coco_to_yolo` (`coco_to_yolo.py`): the class list written to
`classes.txt` is `sorted(categories.values())` and class ids are positions in
that list; returns the `classes.txt` lines and the label lines in annotation
order. -/
def convert_coco_to_yolo (images : List CImage) (cats : List CCat) (anns : List CAnn)
    (dims : String → Option (ℕ × ℕ)) : Except Unit (List String × List YoloLine) :=
  let classList := pySorted (cats.map (·.name))
  match processAnns images cats classList dims anns with
  | .ok ls => .ok (classList, ls)
  | .error e => .error e

end CocoToYolo

namespace CocoToYoloSplit

/-- `val_size = int(len(image_ids) * val_split)` (`coco_to_yolo_split.py`). -/
def val_size (n : ℕ) (valSplit : ℚ) : ℕ := (pyInt ((n : ℚ) * valSplit)).toNat

/-- `val_ids = set(image_ids[:val_size])`, where the argument is the image id
list after `random.shuffle` (the shuffle itself is unseeded, so the
permutation is an input here). -/
def val_ids (shuffled : List ℤ) (valSplit : ℚ) : List ℤ :=
  shuffled.take (val_size shuffled.length valSplit)

/-- `test_ids = set(image_ids[val_size:])`. -/
def test_ids (shuffled : List ℤ) (valSplit : ℚ) : List ℤ :=
  shuffled.drop (val_size shuffled.length valSplit)

/-- `classes.txt` written by the split script: `list(categories.values())` in
input order (not sorted). -/
def split_classes_txt (cats : List CocoToYolo.CCat) : List String := cats.map (·.name)

/-- One label line written by the split script, tagged with its target
partition (`isVal = true` means the `YOLO_Val` tree); the class field is
`ann['category_id']`, written as-is. -/
structure SplitLine where
  isVal : Bool
  labelFile : String
  classId : ℤ
  xc : ℚ
  yc : ℚ
  w : ℚ
  h : ℚ
deriving DecidableEq

/-- Body of the `for ann in data["annotations"]` loop of
`coco_to_yolo_split.py`: image dict lookup may raise; the partition is chosen
by membership of the image id in `val_ids`; an unreadable image skips the
annotation; the emitted class field is the raw COCO `category_id`. -/
def processAnns (images : List CocoToYolo.CImage) (dims : String → Option (ℕ × ℕ))
    (vIds : List ℤ) : List CocoToYolo.CAnn → Except Unit (List SplitLine)
  | [] => .ok []
  | ann :: rest =>
    match images.find? (fun i => i.id == ann.image_id) with
    | none => .error ()
    | some img =>
      match dims img.file_name with
      | none => processAnns images dims vIds rest
      | some (W, H) =>
        let x := ann.bbox.1
        let y := ann.bbox.2.1
        let w := ann.bbox.2.2.1
        let h := ann.bbox.2.2.2
        let line : SplitLine :=
          ⟨vIds.contains img.id, pyReplace img.file_name ".jpg" ".txt", ann.category_id,
           (x + w / 2) / W, (y + h / 2) / H, w / W, h / H⟩
        match processAnns images dims vIds rest with
        | .ok ls => .ok (line :: ls)
        | .error e => .error e

/-- `convert_coco_to_yolo` of `coco_to_yolo_split.py`, with the post-shuffle
image id order supplied as `shuffled`: writes `classes.txt` and the label
lines with their partition assignment. -/
def convert_coco_to_yolo_split (images : List CocoToYolo.CImage)
    (cats : List CocoToYolo.CCat) (anns : List CocoToYolo.CAnn)
    (dims : String → Option (ℕ × ℕ)) (shuffled : List ℤ) (valSplit : ℚ) :
    Except Unit (List String × List SplitLine) :=
  match processAnns images dims (val_ids shuffled valSplit) anns with
  | .ok ls => .ok (split_classes_txt cats, ls)
  | .error e => .error e

end CocoToYoloSplit

namespace YoloToPascal

/-- `convert_yolo_to_pascal_voc` (`Yolo_to_pascal.py`): the body of the
`for img_file in tqdm(os.listdir(yolo_img_dir))` loop is `pass`, so the
function returns without producing anything.  The return value models the
list of (XML file name, XML content) pairs a real conversion would write. -/
def convert_yolo_to_pascal_voc (imgFiles : List String) : List (String × String) :=
  imgFiles.foldl (fun acc _ => acc) []

end YoloToPascal

/-- A list of annotation records carries ids 1, 2, …, k in order, and the next
id counter stands at k + 1. -/
def idsContiguous {β : Type} (getId : β → ℕ) (anns : List β) (annId : ℕ) : Prop :=
  anns.map getId = List.range' 1 anns.length ∧ annId = anns.length + 1

namespace PascalToCoco

/-- The invariant of the `pascal_voc_to_coco` loop: emitted annotation ids are
1, 2, …, k and `annotation_id` is k + 1. -/
def PInv (s : PState) : Prop := idsContiguous (·.id) s.out.annotations s.annId

end PascalToCoco

namespace YoloToCoco

/-- The invariant of the `convert_yolo_to_coco` loops: emitted annotation ids
are 1, 2, …, k and `annotation_id` is k + 1. -/
def YInv (s : YState) : Prop := idsContiguous (·.id) s.anns s.annId

end YoloToCoco

/-- Appending one record with the current counter value keeps ids
contiguous. -/
theorem idsContiguous_append {β : Type} (getId : β → ℕ) (anns : List β) (annId : ℕ)
    (a : β) (h : idsContiguous getId anns annId) (ha : getId a = annId) :
    idsContiguous getId (anns ++ [a]) (annId + 1) := by
  obtain ⟨h1, h2⟩ := h
  constructor
  · rw [List.map_append, List.map_cons, List.map_nil, h1, List.length_append]
    have : anns.length + [a].length = anns.length + 1 := by simp
    rw [this, List.range'_concat, ha, h2]
    simp [Nat.add_comm]
  · simp [h2]

/-- Invariant preservation through a left fold. -/
theorem foldl_preserves {α σ : Type} (P : σ → Prop) (f : σ → α → σ)
    (hf : ∀ s a, P s → P (f s a)) : ∀ (l : List α) (s : σ), P s → P (l.foldl f s)
  | [], _, hs => hs
  | a :: l, s, hs => foldl_preserves P f hf l (f s a) (hf s a hs)

namespace PascalToCoco

/-- `resolveCat` never touches annotations or the id counter. -/
theorem resolveCat_anns (s : PState) (n : String) :
    (resolveCat s n).2.out.annotations = s.out.annotations ∧
      (resolveCat s n).2.annId = s.annId := by
  unfold resolveCat
  rcases s.catMapping.findIdx? (· == n) with _ | i <;> simp

/-- `processObj` preserves the id-contiguity invariant. -/
theorem processObj_pinv (imageId : ℕ) (s : PState) (obj : VocObject) (h : PInv s) :
    PInv (processObj imageId s obj) := by
  obtain ⟨ha, hc⟩ := resolveCat_anns s obj.name
  unfold processObj
  split
  · exact (show PInv (resolveCat s obj.name).2 by unfold PInv; rw [ha, hc]; exact h)
  · unfold PInv
    simp only
    rw [ha, hc]
    exact idsContiguous_append _ _ _ _ h rfl

/-- `processVocFile` preserves the id-contiguity invariant. -/
theorem processVocFile_pinv (s : PState) (idxFile : ℕ × Option VocFile) (h : PInv s) :
    PInv (processVocFile s idxFile) := by
  unfold processVocFile
  rcases idxFile with ⟨idx, _ | f⟩
  · exact h
  · exact foldl_preserves PInv (processObj (idx + 1)) (processObj_pinv (idx + 1)) f.objects _ h

end PascalToCoco

namespace YoloToCoco

/-- `processLine` preserves the id-contiguity invariant on success. -/
theorem processLine_yinv (imageId W H : ℕ) (s : YState) (line : String) (s' : YState)
    (hok : processLine imageId W H s line = .ok s') (h : YInv s) : YInv s' := by
  unfold processLine at hok
  rcases hp : parseLine line with _ | _ | ⟨c, xc, yc, w, lh⟩ <;> rw [hp] at hok
  · exact (Except.ok.inj hok) ▸ h
  · exact absurd hok (by simp)
  · simp only [Except.ok.injEq] at hok
    subst hok
    exact idsContiguous_append _ _ _ _ h rfl

/-- `processLines` preserves the id-contiguity invariant on success. -/
theorem processLines_yinv (imageId W H : ℕ) (lines : List String) :
    ∀ (s s' : YState), processLines imageId W H s lines = .ok s' → YInv s → YInv s' := by
  induction lines with
  | nil =>
    intro s s' hok h
    simp only [processLines, Except.ok.injEq] at hok
    exact hok ▸ h
  | cons l ls ih =>
    intro s s' hok h
    unfold processLines at hok
    rcases hl : processLine imageId W H s l with e | s1 <;> rw [hl] at hok
    · exact absurd hok (by simp)
    · exact ih s1 s' hok (processLine_yinv imageId W H s l s1 hl h)

/-- `processYoloFile` preserves the id-contiguity invariant on success. -/
theorem processYoloFile_yinv (s : YState) (f : YoloFile) (s' : YState)
    (hok : processYoloFile s f = .ok s') (h : YInv s) : YInv s' := by
  unfold processYoloFile at hok
  split at hok
  · rcases hl : f.labelLines with _ | lines <;> rw [hl] at hok
    · exact (Except.ok.inj hok) ▸ h
    · rcases hd : f.dims with _ | ⟨W, H⟩ <;> rw [hd] at hok
      · exact (Except.ok.inj hok) ▸ h
      · exact processLines_yinv _ W H lines _ s' hok h
  · exact (Except.ok.inj hok) ▸ h

/-- `processYoloFiles` preserves the id-contiguity invariant on success. -/
theorem processYoloFiles_yinv (files : List YoloFile) :
    ∀ (s s' : YState), processYoloFiles s files = .ok s' → YInv s → YInv s' := by
  induction files with
  | nil =>
    intro s s' hok h
    simp only [processYoloFiles, Except.ok.injEq] at hok
    exact hok ▸ h
  | cons f fs ih =>
    intro s s' hok h
    unfold processYoloFiles at hok
    rcases hf : processYoloFile s f with e | s1 <;> rw [hf] at hok
    · exact absurd hok (by simp)
    · exact ih s1 s' hok (processYoloFile_yinv s f s1 hf h)

end YoloToCoco

/-- C7: in both converters that emit a JSON catalog (`pascal_voc_to_coco` and
`convert_yolo_to_coco`), rejected records never consume an id, so the emitted
annotation ids are exactly 1, 2, …, k in output order. -/
theorem annotation_id_contiguity :
    (∀ (files : List (Option PascalToCoco.VocFile)) (m : ℕ),
      (PascalToCoco.pascal_voc_to_coco files m).annotations.map (·.id) =
        List.range' 1 (PascalToCoco.pascal_voc_to_coco files m).annotations.length) ∧
    (∀ (classNames : List String) (files : List YoloToCoco.YoloFile) (out : YoloToCoco.YOut),
      YoloToCoco.convert_yolo_to_coco classNames files = .ok out →
        out.annotations.map (·.id) = List.range' 1 out.annotations.length) := by
  constructor
  · intro files m
    have h0 : PascalToCoco.PInv
        { out := { images := [], annotations := [], categories := [] },
          catMapping := [], annId := 1 } := ⟨rfl, rfl⟩
    have := foldl_preserves PascalToCoco.PInv PascalToCoco.processVocFile
      PascalToCoco.processVocFile_pinv files.enum _ h0
    exact this.1
  · intro classNames files out hok
    unfold YoloToCoco.convert_yolo_to_coco at hok
    rcases hf : YoloToCoco.processYoloFiles { images := [], anns := [], annId := 1 } files with
      e | s <;> rw [hf] at hok
    · exact absurd hok (by simp)
    · simp only [Except.ok.injEq] at hok
      have h0 : YoloToCoco.YInv { images := [], anns := [], annId := 1 } := ⟨rfl, rfl⟩
      have hs := YoloToCoco.processYoloFiles_yinv files _ s hf h0
      rw [← hok]
      exact hs.1

/-- Evaluation of `convert_yolo_to_coco` on a one-image, one-line input (image
"a.jpg" of size 640×480, single label line `0 0.25 0.25 0.5 0.5`), used to
witness the contiguity theorem: the output holds one image record
(1, "a.jpg", 640, 480), one annotation (id 1, image 1, category 1, bbox
(0, 0, 320, 240), area 76800, iscrowd 0) and one category (1, "person"). -/
theorem convert_yolo_example_eval :
    YoloToCoco.convert_yolo_to_coco ["person"]
      [⟨"a.jpg", some ["0 0.25 0.25 0.5 0.5"], some (640, 480)⟩] =
    .ok ⟨[⟨1, "a.jpg", 640, 480⟩], [⟨1, 1, 1, (0, 0, 320, 240), 76800, 0⟩],
      [(1, "person")]⟩ := by
  have h1 : YoloToCoco.convert_yolo_to_coco ["person"]
      [⟨"a.jpg", some ["0 0.25 0.25 0.5 0.5"], some (640, 480)⟩] =
    .ok ⟨[⟨1, "a.jpg", 640, 480⟩],
      [⟨1, 1, pyInt ((0 : ℕ) : ℚ) + 1,
        ((((0 : ℕ) : ℚ) + ((25 : ℕ) : ℚ) / (10 : ℚ) ^ (2 : ℕ) -
            (((0 : ℕ) : ℚ) + ((5 : ℕ) : ℚ) / (10 : ℚ) ^ (1 : ℕ)) / 2) * ((640 : ℕ) : ℚ),
         (((0 : ℕ) : ℚ) + ((25 : ℕ) : ℚ) / (10 : ℚ) ^ (2 : ℕ) -
            (((0 : ℕ) : ℚ) + ((5 : ℕ) : ℚ) / (10 : ℚ) ^ (1 : ℕ)) / 2) * ((480 : ℕ) : ℚ),
         (((0 : ℕ) : ℚ) + ((5 : ℕ) : ℚ) / (10 : ℚ) ^ (1 : ℕ)) * ((640 : ℕ) : ℚ),
         (((0 : ℕ) : ℚ) + ((5 : ℕ) : ℚ) / (10 : ℚ) ^ (1 : ℕ)) * ((480 : ℕ) : ℚ)),
        ((((0 : ℕ) : ℚ) + ((5 : ℕ) : ℚ) / (10 : ℚ) ^ (1 : ℕ)) * ((640 : ℕ) : ℚ)) *
          ((((0 : ℕ) : ℚ) + ((5 : ℕ) : ℚ) / (10 : ℚ) ^ (1 : ℕ)) * ((480 : ℕ) : ℚ)), 0⟩],
      [(1, "person")]⟩ := rfl
  rw [h1]
  simp only [Except.ok.injEq, YoloToCoco.YOut.mk.injEq, YoloToCoco.YAnn.mk.injEq,
    Prod.mk.injEq, List.cons.injEq, List.nil_eq, and_true, true_and]
  norm_num [pyInt]

/-- Witness for `annotation_id_contiguity`: on the concrete one-line input of
`convert_yolo_example_eval`, the single emitted annotation carries id 1. -/
theorem annotation_id_contiguity_witness :
    ([(⟨1, 1, 1, (0, 0, 320, 240), 76800, 0⟩ : YoloToCoco.YAnn)].map (·.id)) =
      List.range' 1 1 :=
  annotation_id_contiguity.2 ["person"]
    [⟨"a.jpg", some ["0 0.25 0.25 0.5 0.5"], some (640, 480)⟩] _ convert_yolo_example_eval

/-- C10: the `max_files` parameter of `pascal_voc_to_coco` is accepted but
never read, so any two values give identical COCO output on the same
inputs. -/
theorem max_files_has_no_effect (files : List (Option PascalToCoco.VocFile)) (m1 m2 : ℕ) :
    PascalToCoco.pascal_voc_to_coco files m1 = PascalToCoco.pascal_voc_to_coco files m2 := rfl

/-- C2: converting origin+size form to corner form and back returns the
original quadruple exactly, for integer boxes with positive width and
height. -/
theorem corner_origin_size_inverse (x y w h : ℤ) (hw : 0 < w) (hh : 0 < h) :
    PascalToCoco.voc_bbox_to_coco
      (CocoToPascal.coco_bbox_to_voc ((x : ℚ), (y : ℚ), (w : ℚ), (h : ℚ))) = (x, y, w, h) := by
  have hcast : ∀ n : ℤ, pyInt (n : ℚ) = n := fun n => by
    unfold pyInt
    split
    · exact Int.ceil_intCast n
    · exact Int.floor_intCast n
  have hxw : ((x : ℚ) + (w : ℚ)) = ((x + w : ℤ) : ℚ) := by push_cast; ring
  have hyh : ((y : ℚ) + (h : ℚ)) = ((y + h : ℤ) : ℚ) := by push_cast; ring
  simp only [CocoToPascal.coco_bbox_to_voc, PascalToCoco.voc_bbox_to_coco, hxw, hyh, hcast,
    Prod.mk.injEq]
  exact ⟨trivial, trivial, by omega, by omega⟩

/-- C1: on a 640×480 image, the JSON-catalog origin+size box [100,150,200,250]
converts to the XML corner box (100,150,300,400), and that corner box converts
to the normalized line whose four 6-decimal fields read 0.312500, 0.572917,
0.312500, 0.520833. -/
theorem end_to_end_example_1 :
    CocoToPascal.coco_bbox_to_voc (100, 150, 200, 250) = (100, 150, 300, 400) ∧
    PascalToYolo.voc_to_yolo_box 100 150 300 400 640 480 =
      some (5 / 16, 55 / 96, 5 / 16, 25 / 48) ∧
    fmt6 (5 / 16) = 312500 ∧ fmt6 (55 / 96) = 572917 ∧
    fmt6 (5 / 16) = 312500 ∧ fmt6 (25 / 48) = 520833 := by
  refine ⟨?_, ?_, ?_, ?_, ?_, ?_⟩ <;>
    simp only [CocoToPascal.coco_bbox_to_voc, PascalToYolo.voc_to_yolo_box, pyInt, fmt6] <;>
    norm_num

/-- Witness for `corner_origin_size_inverse` at the box (5, 7, 20, 30). -/
theorem corner_origin_size_inverse_witness :
    PascalToCoco.voc_bbox_to_coco
      (CocoToPascal.coco_bbox_to_voc ((5 : ℚ), (7 : ℚ), (20 : ℚ), (30 : ℚ))) = (5, 7, 20, 30) :=
  corner_origin_size_inverse 5 7 20 30 (by decide) (by decide)

/-- C3 (code evaluation): `convert_coco_to_yolo` (`coco_to_yolo.py`) performs
no degenerate-box check — the JSON-catalog annotation with origin+size box
(10, 10, 0, 5), whose corner form has xmax = xmin, is written to the label
file as a line with normalized width 0 instead of being rejected. -/
theorem degenerate_box_reaches_yolo_writer :
    CocoToYolo.convert_coco_to_yolo [⟨1, "img.jpg"⟩] [⟨1, "person"⟩]
      [⟨1, 1, (10, 10, 0, 5)⟩]
      (fun n => if n = "img.jpg" then some (640, 480) else none) =
    .ok (["person"], [⟨"img.txt", 0, 1 / 64, 5 / 192, 0, 1 / 96⟩]) := by
  have h1 : CocoToYolo.convert_coco_to_yolo [⟨1, "img.jpg"⟩] [⟨1, "person"⟩]
      [⟨1, 1, (10, 10, 0, 5)⟩]
      (fun n => if n = "img.jpg" then some (640, 480) else none) =
    .ok (["person"], [⟨"img.txt", 0,
      ((10 : ℚ) + (0 : ℚ) / 2) / ((640 : ℕ) : ℚ),
      ((10 : ℚ) + (5 : ℚ) / 2) / ((480 : ℕ) : ℚ),
      (0 : ℚ) / ((640 : ℕ) : ℚ), (5 : ℚ) / ((480 : ℕ) : ℚ)⟩]) := rfl
  rw [h1]
  simp only [Except.ok.injEq, Prod.mk.injEq, CocoToYolo.YoloLine.mk.injEq,
    List.cons.injEq, and_true, true_and]
  norm_num

/-- C4 (code evaluation): the split converter (`coco_to_yolo_split.py`) writes
the raw 1-based COCO `category_id` into the normalized-text line — with the
single category (1, "person"), whose `classes.txt` line position is 0, the
emitted class field is 1, not 0. -/
theorem split_writes_one_based_category_id :
    CocoToYoloSplit.convert_coco_to_yolo_split [⟨1, "img.jpg"⟩] [⟨1, "person"⟩]
      [⟨1, 1, (10, 10, 20, 20)⟩]
      (fun n => if n = "img.jpg" then some (640, 480) else none) [1] (1 / 5) =
    .ok (["person"], [⟨false, "img.txt", 1, 1 / 32, 1 / 24, 1 / 32, 1 / 24⟩]) := by
  have hv : CocoToYoloSplit.val_ids [1] (1 / 5) = [] := by
    norm_num [CocoToYoloSplit.val_ids, CocoToYoloSplit.val_size, pyInt]
  unfold CocoToYoloSplit.convert_coco_to_yolo_split
  rw [hv]
  have h2 : CocoToYoloSplit.processAnns [⟨1, "img.jpg"⟩]
      (fun n => if n = "img.jpg" then some (640, 480) else none) []
      [⟨1, 1, (10, 10, 20, 20)⟩] =
    .ok [⟨false, "img.txt", 1,
      ((10 : ℚ) + (20 : ℚ) / 2) / ((640 : ℕ) : ℚ),
      ((10 : ℚ) + (20 : ℚ) / 2) / ((480 : ℕ) : ℚ),
      (20 : ℚ) / ((640 : ℕ) : ℚ), (20 : ℚ) / ((480 : ℕ) : ℚ)⟩] := rfl
  rw [h2]
  simp only [Except.ok.injEq, Prod.mk.injEq, CocoToYoloSplit.SplitLine.mk.injEq,
    List.cons.injEq, and_true, true_and, CocoToYoloSplit.split_classes_txt,
    List.map_cons, List.map_nil]
  norm_num

/-- C5 (code evaluation): the split is a function of the shuffled order, and
the shuffle is unseeded — the two orders [1, 2] and [2, 1] are permutations
of the same image id set, yet they put different images into the validation
partition, so two runs need not agree. -/
theorem split_depends_on_shuffle :
    List.Perm [2, 1] [1, 2] ∧
    (CocoToYoloSplit.val_ids [1, 2] (1 / 2)).toFinset ≠
      (CocoToYoloSplit.val_ids [2, 1] (1 / 2)).toFinset := by
  have h1 : CocoToYoloSplit.val_ids [1, 2] (1 / 2) = [1] := by
    norm_num [CocoToYoloSplit.val_ids, CocoToYoloSplit.val_size, pyInt]
  have h2 : CocoToYoloSplit.val_ids [2, 1] (1 / 2) = [2] := by
    norm_num [CocoToYoloSplit.val_ids, CocoToYoloSplit.val_size, pyInt]
  refine ⟨by decide, ?_⟩
  rw [h1, h2]
  decide

/-- C6: whatever permutation the shuffle produced, the validation and test id
lists partition the original image id set — they are disjoint and their union
is the original set. -/
theorem split_completeness (ids shuffled : List ℤ) (f : ℚ)
    (hperm : shuffled.Perm ids) (hnd : ids.Nodup) :
    (CocoToYoloSplit.val_ids shuffled f).toFinset ∩
        (CocoToYoloSplit.test_ids shuffled f).toFinset = ∅ ∧
    (CocoToYoloSplit.val_ids shuffled f).toFinset ∪
        (CocoToYoloSplit.test_ids shuffled f).toFinset = ids.toFinset := by
  have hnd' : shuffled.Nodup := hperm.nodup_iff.2 hnd
  constructor
  · apply Finset.eq_empty_iff_forall_not_mem.2
    intro a ha
    rw [Finset.mem_inter, List.mem_toFinset, List.mem_toFinset] at ha
    exact List.disjoint_take_drop hnd' le_rfl ha.1 ha.2
  · rw [← List.toFinset_append]
    unfold CocoToYoloSplit.val_ids CocoToYoloSplit.test_ids
    rw [List.take_append_drop]
    exact List.toFinset_eq_of_perm shuffled ids hperm

/-- Witness for `split_completeness` at ids [1, 2], shuffle order [2, 1],
fraction 1/2. -/
theorem split_completeness_witness :
    (CocoToYoloSplit.val_ids [2, 1] (1 / 2)).toFinset ∩
        (CocoToYoloSplit.test_ids [2, 1] (1 / 2)).toFinset = ∅ ∧
    (CocoToYoloSplit.val_ids [2, 1] (1 / 2)).toFinset ∪
        (CocoToYoloSplit.test_ids [2, 1] (1 / 2)).toFinset =
      ([1, 2] : List ℤ).toFinset :=
  split_completeness [1, 2] [2, 1] (1 / 2) (by decide) (by decide)

/-- C8 (code evaluation): a label line with the wrong field count (`"0 0"`) is
skipped and the next line of the same file is still processed; but a 5-field
line with a non-numeric field (`"0 abc 0.5 0.5 0.5"`) makes `float` raise, so
the whole conversion aborts with an error instead of skipping the line. -/
theorem malformed_line_behavior :
    YoloToCoco.processLines 1 640 480 ⟨[], [], 1⟩ ["0 0", "0 0.25 0.25 0.5 0.5"] =
      .ok ⟨[], [⟨1, 1, 1, (0, 0, 320, 240), 76800, 0⟩], 2⟩ ∧
    YoloToCoco.convert_yolo_to_coco ["person"]
      [⟨"a.jpg", some ["0 abc 0.5 0.5 0.5", "0 0.25 0.25 0.5 0.5"], some (640, 480)⟩] =
      Except.error () := by
  constructor
  · have h1 : YoloToCoco.processLines 1 640 480 ⟨[], [], 1⟩
        ["0 0", "0 0.25 0.25 0.5 0.5"] =
      .ok ⟨[], [⟨1, 1, pyInt ((0 : ℕ) : ℚ) + 1,
        ((((0 : ℕ) : ℚ) + ((25 : ℕ) : ℚ) / (10 : ℚ) ^ (2 : ℕ) -
            (((0 : ℕ) : ℚ) + ((5 : ℕ) : ℚ) / (10 : ℚ) ^ (1 : ℕ)) / 2) * ((640 : ℕ) : ℚ),
         (((0 : ℕ) : ℚ) + ((25 : ℕ) : ℚ) / (10 : ℚ) ^ (2 : ℕ) -
            (((0 : ℕ) : ℚ) + ((5 : ℕ) : ℚ) / (10 : ℚ) ^ (1 : ℕ)) / 2) * ((480 : ℕ) : ℚ),
         (((0 : ℕ) : ℚ) + ((5 : ℕ) : ℚ) / (10 : ℚ) ^ (1 : ℕ)) * ((640 : ℕ) : ℚ),
         (((0 : ℕ) : ℚ) + ((5 : ℕ) : ℚ) / (10 : ℚ) ^ (1 : ℕ)) * ((480 : ℕ) : ℚ)),
        ((((0 : ℕ) : ℚ) + ((5 : ℕ) : ℚ) / (10 : ℚ) ^ (1 : ℕ)) * ((640 : ℕ) : ℚ)) *
          ((((0 : ℕ) : ℚ) + ((5 : ℕ) : ℚ) / (10 : ℚ) ^ (1 : ℕ)) * ((480 : ℕ) : ℚ)), 0⟩],
        2⟩ := rfl
    rw [h1]
    simp only [Except.ok.injEq, YoloToCoco.YState.mk.injEq, YoloToCoco.YAnn.mk.injEq,
      Prod.mk.injEq, List.cons.injEq, List.nil_eq, and_true, true_and]
    norm_num [pyInt]
  · rfl

/-- C9 (code evaluation): on a non-empty image directory,
`convert_yolo_to_pascal_voc` returns having produced no output at all — a
silent no-op rather than a conversion or an explicit unsupported-operation
error. -/
theorem yolo_to_pascal_silent_noop :
    YoloToPascal.convert_yolo_to_pascal_voc ["000001.jpg", "000002.jpg"] = [] := rfl

end ObjDetec
